import Mathlib

/-!
Verification development for the barcode-access-system repository.

The embedding below translates the pass ("barcode") data model of
`src/models/Barcode.js`, the validation middleware of
`src/middleware/security.js`, and the redemption / issuance route handlers of
`src/server.js` and of the second server revision (`src/unnamed/part_000`)
into executable Lean definitions.

Modelling conventions:
- A JavaScript `Date` instant is represented by its local calendar breakdown
  `Instant` (year, month, day, hour, minute); comparison of `Date` objects
  (epoch-millisecond order) is represented by lexicographic order on that
  tuple, which coincides with epoch order for valid local datetimes.
- A calendar day (the source compares days either as midnight `Date` objects,
  via `new Date(y, m, d)`, or as ISO `"YYYY-MM-DD"` prefixes of
  `toISOString()`) is a `DateTriple`; both source comparisons realize the
  lexicographic order on (year, month, day) for valid dates.
- `HH:MM` time-of-day values are kept as Lean `String`s, compared with the
  lexicographic string order, exactly as the JavaScript handlers compare them
  with `<` / `>` on strings.
- Nullable fields become `Option`; JavaScript string truthiness (`""` is
  falsy) is modelled explicitly where the source relies on it.
-/

/-- A local calendar datetime, standing for a JavaScript `Date` instant.
Ordering of instants is lexicographic on (year, month, day, hour, minute). -/
structure Instant where
  year : Nat
  month : Nat
  day : Nat
  hour : Nat
  minute : Nat
deriving DecidableEq, Repr

/-- A calendar day (no time-of-day component). -/
structure DateTriple where
  year : Nat
  month : Nat
  day : Nat
deriving DecidableEq, Repr

/-- Strict order on instants: the order `new Date(...) < new Date(...)`
(epoch-millisecond comparison) induces on valid local datetimes. -/
def Instant.ltb (a b : Instant) : Bool :=
  decide (a.year < b.year ∨ (a.year = b.year ∧
    (a.month < b.month ∨ (a.month = b.month ∧
      (a.day < b.day ∨ (a.day = b.day ∧
        (a.hour < b.hour ∨ (a.hour = b.hour ∧ a.minute < b.minute))))))))

/-- Strict order on calendar days: both the midnight-`Date` comparison of the
`POST /verify` handler and the ISO-date-string comparison of the mobile-scan
handlers realize this order on valid dates. -/
def DateTriple.ltb (a b : DateTriple) : Bool :=
  decide (a.year < b.year ∨ (a.year = b.year ∧
    (a.month < b.month ∨ (a.month = b.month ∧ a.day < b.day))))

/-- The calendar date of an instant (`new Date(now.getFullYear(),
now.getMonth(), now.getDate())` resp. `toISOString().split('T')[0]`). -/
def Instant.dateOf (t : Instant) : DateTriple :=
  ⟨t.year, t.month, t.day⟩

/-- Two-digit zero padding, as in `padStart(2, '0')`. -/
def pad2 (n : Nat) : String :=
  if n < 10 then "0" ++ toString n else toString n

/-- The `HH:MM` string the handlers build from the current instant
(`now.toTimeString().slice(0, 5)` resp. `${currentHours}:${currentMinutes}`). -/
def Instant.timeHM (t : Instant) : String :=
  pad2 t.hour ++ ":" ++ pad2 t.minute

/-- JavaScript `s || dflt` on strings: the empty string is falsy. -/
def orDefault (s dflt : String) : String :=
  if s == "" then dflt else s

/-- JavaScript `<` on strings (the handlers compare `HH:MM` strings with
`<` and `>`): lexicographic comparison, realized on the character lists. -/
def strLtb (a b : String) : Bool :=
  decide (a.data < b.data)

/-- JavaScript `String.prototype.trim`: strip leading and trailing
whitespace, realized on the character list. -/
def jsTrim (s : String) : String :=
  ⟨((s.data.dropWhile Char.isWhitespace).reverse.dropWhile Char.isWhitespace).reverse⟩

/-- The pass record, from the `barcodeSchema` of `src/models/Barcode.js`
(revision with schedule fields). `activeDate` keeps only the calendar-day
component, which is the only part any handler reads. -/
structure Barcode where
  code : String
  used : Bool
  issuedTo : String
  issuedAt : Instant
  usedAt : Option Instant
  purpose : Option String
  expiresAt : Option Instant
  scannerId : Option String
  activeDate : Option DateTriple
  activeTime : String
  endTime : String
  allowEarlyAccess : Bool
deriving DecidableEq, Repr

/-- The outcome a redemption handler renders: GRANT or a categorized DENY.
Payloads record the detail the handler's message interpolates.
`defaultRender` is the `GET /verify` fall-through that renders the plain
verify page without processing the scanned code. -/
inductive Verdict where
  | grant
  | defaultRender
  | denyNotFound
  | denyAlreadyUsed (usedAt : Option Instant)
  | denyExpired (expiresAt : Instant)
  | denyNotYetActive (activeDate : DateTriple)
  | denyWindowElapsed (activeDate : DateTriple)
  | denyTooEarly (activeTime : String)
  | denyTooLate (endTime : String)
deriving DecidableEq, Repr

/-- The write every granting handler performs before rendering success:
`barcode.used = true; barcode.usedAt = new Date(); await barcode.save()`. -/
def markUsed (b : Barcode) (now : Instant) : Barcode :=
  { b with used := true, usedAt := some now }

/-- `barcodeSchema.methods.markAsUsed` (src/models/Barcode.js lines 55-60):
sets `used`, `usedAt`, and `scannerId` when a truthy scanner id is given,
then saves. -/
def markAsUsed (b : Barcode) (now : Instant) (scannerId : Option String) : Barcode :=
  { b with
    used := true
    usedAt := some now
    scannerId :=
      match scannerId with
      | some s => if s == "" then b.scannerId else some s
      | none => b.scannerId }

/-- `barcodeSchema.methods.isValid` (src/models/Barcode.js lines 63-67). -/
def Barcode.isValid (b : Barcode) (now : Instant) : Bool :=
  if b.used then false
  else
    match b.expiresAt with
    | some e => !(Instant.ltb e now)
    | none => true

/-- `barcodeSchema.methods.isActive` (src/models/Barcode.js lines 128-147):
no `activeDate` means always active; otherwise today must equal the active
date (`toDateString()` comparison) and, when both bounds are truthy, the
current `HH:MM` must satisfy `activeTime <= currentTime <= endTime`. -/
def Barcode.isActive (b : Barcode) (now : Instant) : Bool :=
  match b.activeDate with
  | none => true
  | some d =>
    if now.dateOf != d then false
    else if b.activeTime != "" && b.endTime != "" then
      !(strLtb now.timeHM b.activeTime) && !(strLtb b.endTime now.timeHM)
    else true

/-- The schedule block shared verbatim by the `POST /verify` handler
(src/server.js lines 510-603) and the `GET /verify` scannedCode path
(src/server.js lines 331-397): before the event day, deny unless
`allowEarlyAccess`; after it, deny; on it, compare the current `HH:MM`
against the inclusive `activeTime`/`endTime` bounds; otherwise grant and
mark the pass used. -/
def scheduleCheck (b : Barcode) (now : Instant) : Verdict × Barcode :=
  match b.activeDate with
  | none => (Verdict.grant, markUsed b now)
  | some eventDay =>
    let today := now.dateOf
    if DateTriple.ltb today eventDay && !b.allowEarlyAccess then
      (Verdict.denyNotYetActive eventDay, b)
    else if DateTriple.ltb eventDay today then
      (Verdict.denyWindowElapsed eventDay, b)
    else if today == eventDay then
      let currentTime := now.timeHM
      if strLtb currentTime b.activeTime then
        (Verdict.denyTooEarly b.activeTime, b)
      else if strLtb b.endTime currentTime then
        (Verdict.denyTooLate b.endTime, b)
      else (Verdict.grant, markUsed b now)
    else (Verdict.grant, markUsed b now)

/-- The `POST /verify` handler (src/server.js lines 441-639), acting on the
record found for the submitted code: used check, then expiry check, then the
schedule block, then consume-and-grant. Identical in both server revisions. -/
def postVerify (b : Barcode) (now : Instant) : Verdict × Barcode :=
  if b.used then (Verdict.denyAlreadyUsed b.usedAt, b)
  else
    match b.expiresAt with
    | some e =>
      if Instant.ltb e now then (Verdict.denyExpired e, b)
      else scheduleCheck b now
    | none => scheduleCheck b now

/-- The `GET /verify` scannedCode path (src/server.js lines 319-439): a found,
unused record goes through the schedule block and is then consumed; a used
record falls through to the default page render. This path performs no
`expiresAt` check. Identical in both server revisions. -/
def getVerifyScanned (b : Barcode) (now : Instant) : Verdict × Barcode :=
  if b.used then (Verdict.defaultRender, b)
  else scheduleCheck b now

/-- Schedule block of the `GET /mobile-scan/:code` handler of src/server.js
(lines 705-778): guarded by `if (barcode.activeDate)`, date comparison via
ISO date strings, time-window checks guarded by truthiness of the bounds. -/
def mobileScanSchedule (b : Barcode) (now : Instant) : Verdict × Barcode :=
  match b.activeDate with
  | none => (Verdict.grant, markUsed b now)
  | some eventDate =>
    let nowDate := now.dateOf
    if DateTriple.ltb nowDate eventDate && !b.allowEarlyAccess then
      (Verdict.denyNotYetActive eventDate, b)
    else if DateTriple.ltb eventDate nowDate then
      (Verdict.denyWindowElapsed eventDate, b)
    else if nowDate == eventDate then
      let currentTime := now.timeHM
      if b.activeTime != "" && strLtb currentTime b.activeTime then
        (Verdict.denyTooEarly b.activeTime, b)
      else if b.endTime != "" && strLtb b.endTime currentTime then
        (Verdict.denyTooLate b.endTime, b)
      else (Verdict.grant, markUsed b now)
    else (Verdict.grant, markUsed b now)

/-- The `GET /mobile-scan/:code` handler of src/server.js (lines 641-806):
used check, expiry check, schedule block, consume-and-grant. -/
def mobileScan (b : Barcode) (now : Instant) : Verdict × Barcode :=
  if b.used then (Verdict.denyAlreadyUsed b.usedAt, b)
  else
    match b.expiresAt with
    | some e =>
      if Instant.ltb e now then (Verdict.denyExpired e, b)
      else mobileScanSchedule b now
    | none => mobileScanSchedule b now

/-- Schedule block of the `GET /mobile-scan/:code` handler of
src/unnamed/part_000 (lines 668-727). Unlike the src/server.js revision it is
NOT guarded by `if (barcode.activeDate)`: `eventDate` is computed
unconditionally, and the time bounds fall back to the full day when falsy. -/
def mobileScanP0Schedule (b : Barcode) (now : Instant) (eventDate : DateTriple) :
    Verdict × Barcode :=
  let today := now.dateOf
  if DateTriple.ltb today eventDate && !b.allowEarlyAccess then
    (Verdict.denyNotYetActive eventDate, b)
  else if DateTriple.ltb eventDate today then
    (Verdict.denyWindowElapsed eventDate, b)
  else if today == eventDate then
    let currentTime := now.timeHM
    let startTime := orDefault b.activeTime "00:00"
    let endT := orDefault b.endTime "23:59"
    if strLtb currentTime startTime then (Verdict.denyTooEarly startTime, b)
    else if strLtb endT currentTime then (Verdict.denyTooLate endT, b)
    else (Verdict.grant, markUsed b now)
  else (Verdict.grant, markUsed b now)

/-- The `GET /mobile-scan/:code` handler of src/unnamed/part_000
(lines 616-751). `const eventDate = new Date(barcode.activeDate)` evaluates
`new Date(null)` when `activeDate` is null, which is the epoch instant, so a
null `activeDate` becomes the calendar day 1970-01-01. -/
def mobileScanP0 (b : Barcode) (now : Instant) : Verdict × Barcode :=
  let eventDate : DateTriple := b.activeDate.getD ⟨1970, 1, 1⟩
  if b.used then (Verdict.denyAlreadyUsed b.usedAt, b)
  else
    match b.expiresAt with
    | some e =>
      if Instant.ltb e now then (Verdict.denyExpired e, b)
      else mobileScanP0Schedule b now eventDate
    | none => mobileScanP0Schedule b now eventDate

/-- Outcome of the `validateBarcodeInput` middleware. -/
inductive ValidationResult where
  | ok
  | errRequired
  | errIssuedToLong
  | errPurposeLong
deriving DecidableEq, Repr

/-- `validateBarcodeInput` (src/middleware/security.js lines 25-41): a falsy
or whitespace-only `issuedTo` is required-rejected; an `issuedTo` longer than
100 characters and a truthy `purpose` longer than 200 characters are
length-rejected; otherwise the request proceeds (`next()`). The middleware
touches no stored state; a rejection responds before any handler runs. -/
def validateBarcodeInput (issuedTo : Option String) (purpose : Option String) :
    ValidationResult :=
  match issuedTo with
  | none => ValidationResult.errRequired
  | some s =>
    if (jsTrim s).length == 0 then ValidationResult.errRequired
    else if s.length > 100 then ValidationResult.errIssuedToLong
    else
      match purpose with
      | some p =>
        if p != "" && p.length > 200 then ValidationResult.errPurposeLong
        else ValidationResult.ok
      | none => ValidationResult.ok

/-- The request body fields of `POST /generate` that the handler reads.
`none` stands for a field absent from the submitted form. -/
structure GenerateRequest where
  issuedTo : Option String
  purpose : Option String
  expiryHours : Option Nat
  activeDate : Option DateTriple
  activeTime : Option String
  endTime : Option String
  allowEarlyAccess : Bool
deriving DecidableEq, Repr

/-- The `POST /generate` handler (src/server.js lines 182-316, and
src/unnamed/part_000 lines 154-274): destructuring defaults
`activeTime = '09:00'`, `endTime = '17:00'`; a falsy `issuedTo` is rejected
with no record created; otherwise a record is built and saved. `clock` stands
for the epoch arithmetic `new Date(Date.now() + expiryHours * 3600000)`
mapping an hour count to the expiry instant. Returns the saved record, or
`none` when the request is rejected before any record is created. -/
def generateHandler (req : GenerateRequest) (now : Instant) (code : String)
    (clock : Nat → Instant) : Option Barcode :=
  let activeTime := req.activeTime.getD "09:00"
  let endTime := req.endTime.getD "17:00"
  match req.issuedTo with
  | none => none
  | some s =>
    if s == "" then none
    else
      some
        { code := code
          used := false
          issuedTo := jsTrim s
          issuedAt := now
          usedAt := none
          purpose :=
            match req.purpose with
            | some p => if p == "" then none else some (jsTrim p)
            | none => none
          expiresAt := req.expiryHours.map clock
          scannerId := none
          activeDate := req.activeDate
          activeTime := activeTime
          endTime := endTime
          allowEarlyAccess := req.allowEarlyAccess }

/-- The issuance pipeline as it would run with `validateBarcodeInput`
attached in front of the `POST /generate` handler (the middleware rejects,
sending a 400, before the handler can create any record). Neither server
revision actually attaches the middleware to the route. -/
def generateWithMiddleware (req : GenerateRequest) (now : Instant) (code : String)
    (clock : Nat → Instant) : Option Barcode :=
  match validateBarcodeInput req.issuedTo req.purpose with
  | ValidationResult.ok => generateHandler req now code clock
  | _ => none

/-!
Concurrency model for the redemption race.

Each mobile-scan request suspends at two `await` points: the
`Barcode.findOne` read and the `barcode.save()` write. Between them the
verdict is computed synchronously from the snapshot the read returned, and
the save writes back the snapshot-derived document. A request is therefore a
read step followed by a complete-step; the event loop may interleave the
steps of two requests on the same stored record.
-/

/-- The `await Barcode.findOne(...)` step: snapshot the stored record. -/
def scanRead (store : Barcode) : Barcode := store

/-- The remainder of a mobile-scan request after its read: compute the
verdict from the snapshot; on GRANT, `barcode.save()` overwrites the stored
record with the snapshot-derived document; on DENY the handler returned
before any save, leaving the store as it currently is. -/
def scanComplete (snapshot : Barcode) (now : Instant) (store : Barcode) :
    Verdict × Barcode :=
  let r := mobileScan snapshot now
  (r.1, if r.1 == Verdict.grant then r.2 else store)

/-- Two mobile-scan requests for the same code under the interleaving
read-A, read-B, complete-A, complete-B: both reads happen before either
write. Returns (verdict of A, verdict of B, final stored record). -/
def raceInterleaved (b : Barcode) (nowA nowB : Instant) :
    Verdict × Verdict × Barcode :=
  let snapA := scanRead b
  let snapB := scanRead b
  let (vA, s1) := scanComplete snapA nowA b
  let (vB, s2) := scanComplete snapB nowB s1
  (vA, vB, s2)

/-- The same two requests run one after the other: B's read sees A's write. -/
def raceSerial (b : Barcode) (nowA nowB : Instant) :
    Verdict × Verdict × Barcode :=
  let snapA := scanRead b
  let (vA, s1) := scanComplete snapA nowA b
  let snapB := scanRead s1
  let (vB, s2) := scanComplete snapB nowB s1
  (vA, vB, s2)

/-- The `usedAt`-coherence invariant of the data model: `usedAt` is non-null
exactly when `used` is true. -/
def UsedInv (b : Barcode) : Prop :=
  b.usedAt.isSome = b.used

instance (b : Barcode) : Decidable (UsedInv b) := by
  unfold UsedInv; infer_instance

theorem DateTriple.ltb_irrefl (d : DateTriple) : DateTriple.ltb d d = false := by
  simp [DateTriple.ltb]

theorem DateTriple.ltb_asymm {a b : DateTriple} (h : DateTriple.ltb a b = true) :
    DateTriple.ltb b a = false := by
  simp only [DateTriple.ltb, decide_eq_true_eq] at h
  simp only [DateTriple.ltb, decide_eq_false_iff_not]
  omega

theorem DateTriple.ltb_beq_false {a b : DateTriple} (h : DateTriple.ltb a b = true) :
    (a == b) = false := by
  rcases a with ⟨y₁, m₁, d₁⟩
  rcases b with ⟨y₂, m₂, d₂⟩
  simp only [DateTriple.ltb, decide_eq_true_eq] at h
  simp only [beq_eq_false_iff_ne, ne_eq, DateTriple.mk.injEq, not_and]
  omega

/-- Every redemption handler either grants and writes exactly the
`used`/`usedAt` update, or denies and leaves the record untouched. -/
def WriteDiscipline (r : Verdict × Barcode) (b : Barcode) (now : Instant) : Prop :=
  (r.1 = Verdict.grant ∧ r.2 = markUsed b now) ∨ (r.1 ≠ Verdict.grant ∧ r.2 = b)

theorem scheduleCheck_writes (b : Barcode) (now : Instant) :
    WriteDiscipline (scheduleCheck b now) b now := by
  unfold WriteDiscipline scheduleCheck
  cases h : b.activeDate <;> simp only [h]
  · simp
  · repeat' split
    all_goals simp

theorem postVerify_writes (b : Barcode) (now : Instant) :
    WriteDiscipline (postVerify b now) b now := by
  unfold postVerify
  split
  · exact Or.inr (by simp)
  · cases h : b.expiresAt <;> simp only [h]
    · exact scheduleCheck_writes b now
    · split
      · exact Or.inr (by simp)
      · exact scheduleCheck_writes b now

theorem getVerifyScanned_writes (b : Barcode) (now : Instant) :
    WriteDiscipline (getVerifyScanned b now) b now := by
  unfold getVerifyScanned
  split
  · exact Or.inr (by simp)
  · exact scheduleCheck_writes b now

theorem mobileScanSchedule_writes (b : Barcode) (now : Instant) :
    WriteDiscipline (mobileScanSchedule b now) b now := by
  unfold WriteDiscipline mobileScanSchedule
  cases h : b.activeDate <;> simp only [h]
  · simp
  · repeat' split
    all_goals simp

theorem mobileScan_writes (b : Barcode) (now : Instant) :
    WriteDiscipline (mobileScan b now) b now := by
  unfold mobileScan
  split
  · exact Or.inr (by simp)
  · cases h : b.expiresAt <;> simp only [h]
    · exact mobileScanSchedule_writes b now
    · split
      · exact Or.inr (by simp)
      · exact mobileScanSchedule_writes b now

theorem mobileScanP0Schedule_writes (b : Barcode) (now : Instant) (d : DateTriple) :
    WriteDiscipline (mobileScanP0Schedule b now d) b now := by
  unfold WriteDiscipline mobileScanP0Schedule
  simp only []
  split_ifs <;> simp

theorem mobileScanP0_writes (b : Barcode) (now : Instant) :
    WriteDiscipline (mobileScanP0 b now) b now := by
  unfold mobileScanP0
  split
  · exact Or.inr (by simp)
  · cases h : b.expiresAt <;> simp only [h]
    · exact mobileScanP0Schedule_writes b now _
    · split
      · exact Or.inr (by simp)
      · exact mobileScanP0Schedule_writes b now _

/-- The expiry test `barcode.expiresAt && new Date() > barcode.expiresAt`
every checking handler performs. -/
def expiredB (b : Barcode) (now : Instant) : Bool :=
  match b.expiresAt with
  | some e => Instant.ltb e now
  | none => false

theorem Instant.ltb_trans {a b c : Instant} (h₁ : Instant.ltb a b = true)
    (h₂ : Instant.ltb b c = true) : Instant.ltb a c = true := by
  simp only [Instant.ltb, decide_eq_true_eq] at h₁ h₂ ⊢
  omega

/-- A concrete instant, 2026-10-11 12:00, used in concrete evaluations. -/
def t2026 : Instant := ⟨2026, 10, 11, 12, 0⟩

/-- A fresh pass with no schedule and no expiry: `used=false`,
`activeDate=null`, `expiresAt=null`, schema-default time bounds. -/
def baseBarcode : Barcode :=
  { code := "ABCD1234"
    used := false
    issuedTo := "Alice"
    issuedAt := ⟨2026, 10, 1, 9, 0⟩
    usedAt := none
    purpose := none
    expiresAt := none
    scannerId := none
    activeDate := none
    activeTime := "00:00"
    endTime := "23:59"
    allowEarlyAccess := false }

/-- A pass that has already been consumed. -/
def usedBarcode : Barcode :=
  { baseBarcode with used := true, usedAt := some ⟨2026, 10, 5, 10, 30⟩ }

/-- A pass whose `expiresAt` lies in the past of `t2026`, with no schedule. -/
def expiredPass : Barcode :=
  { baseBarcode with expiresAt := some ⟨2020, 1, 1, 0, 0⟩ }

/-- The expired pass additionally scheduled for the day after `t2026`:
used to observe that expiry is reported ahead of any schedule verdict. -/
def expiredScheduled : Barcode :=
  { expiredPass with activeDate := some ⟨2026, 10, 12⟩ }

theorem postVerify_fresh (b : Barcode) (now : Instant) (hused : b.used = false)
    (hexp : expiredB b now = false) : postVerify b now = scheduleCheck b now := by
  unfold postVerify
  unfold expiredB at hexp
  rcases hE : b.expiresAt with _ | e
  · simp [hused, hE]
  · rw [hE] at hexp
    simp only [] at hexp
    simp [hused, hE, hexp]

theorem getVerifyScanned_fresh (b : Barcode) (now : Instant) (hused : b.used = false) :
    getVerifyScanned b now = scheduleCheck b now := by
  simp [getVerifyScanned, hused]

theorem mobileScan_fresh (b : Barcode) (now : Instant) (hused : b.used = false)
    (hexp : expiredB b now = false) : mobileScan b now = mobileScanSchedule b now := by
  unfold mobileScan
  unfold expiredB at hexp
  rcases hE : b.expiresAt with _ | e
  · simp [hused, hE]
  · rw [hE] at hexp
    simp only [] at hexp
    simp [hused, hE, hexp]

theorem mobileScanP0_fresh (b : Barcode) (now : Instant) (hused : b.used = false)
    (hexp : expiredB b now = false) :
    mobileScanP0 b now = mobileScanP0Schedule b now (b.activeDate.getD ⟨1970, 1, 1⟩) := by
  unfold mobileScanP0
  unfold expiredB at hexp
  rcases hE : b.expiresAt with _ | e
  · simp [hused, hE]
  · rw [hE] at hexp
    simp only [] at hexp
    simp [hused, hE, hexp]

theorem scheduleCheck_same_day (b : Barcode) (d : DateTriple) (now : Instant)
    (hdate : b.activeDate = some d) (hday : now.dateOf = d) :
    scheduleCheck b now =
      if strLtb now.timeHM b.activeTime then (Verdict.denyTooEarly b.activeTime, b)
      else if strLtb b.endTime now.timeHM then (Verdict.denyTooLate b.endTime, b)
      else (Verdict.grant, markUsed b now) := by
  simp only [scheduleCheck, hdate, hday]
  simp [DateTriple.ltb_irrefl]

theorem scheduleCheck_before_day (b : Barcode) (d : DateTriple) (now : Instant)
    (hdate : b.activeDate = some d) (hbefore : DateTriple.ltb now.dateOf d = true) :
    scheduleCheck b now =
      if b.allowEarlyAccess then (Verdict.grant, markUsed b now)
      else (Verdict.denyNotYetActive d, b) := by
  simp only [scheduleCheck, hdate]
  cases ha : b.allowEarlyAccess
  · simp [hbefore, ha]
  · simp [hbefore, ha, DateTriple.ltb_asymm hbefore, DateTriple.ltb_beq_false hbefore]

theorem mobileScanSchedule_before_day (b : Barcode) (d : DateTriple) (now : Instant)
    (hdate : b.activeDate = some d) (hbefore : DateTriple.ltb now.dateOf d = true) :
    mobileScanSchedule b now =
      if b.allowEarlyAccess then (Verdict.grant, markUsed b now)
      else (Verdict.denyNotYetActive d, b) := by
  simp only [mobileScanSchedule, hdate]
  cases ha : b.allowEarlyAccess
  · simp [hbefore, ha]
  · simp [hbefore, ha, DateTriple.ltb_asymm hbefore, DateTriple.ltb_beq_false hbefore]

theorem mobileScanP0Schedule_before_day (b : Barcode) (d : DateTriple) (now : Instant)
    (hbefore : DateTriple.ltb now.dateOf d = true) :
    mobileScanP0Schedule b now d =
      if b.allowEarlyAccess then (Verdict.grant, markUsed b now)
      else (Verdict.denyNotYetActive d, b) := by
  simp only [mobileScanP0Schedule]
  cases ha : b.allowEarlyAccess
  · simp [hbefore, ha]
  · simp [hbefore, ha, DateTriple.ltb_asymm hbefore, DateTriple.ltb_beq_false hbefore]

/-- C1: a consume succeeds at most once. If a pass's `used` flag is already
true, each redemption handler that processes the record returns
DENY("already used") carrying the stored `usedAt`, performs no write, and
leaves the record (in particular `usedAt`) unchanged; the `GET /verify`
path also performs no write on a used pass. Conversely every handler writes
only when the pass it read had `used=false`, so only an unused pass can be
marked used. -/
theorem consume_at_most_once :
    (∀ (b : Barcode) (now : Instant), b.used = true →
      postVerify b now = (Verdict.denyAlreadyUsed b.usedAt, b) ∧
      mobileScan b now = (Verdict.denyAlreadyUsed b.usedAt, b) ∧
      mobileScanP0 b now = (Verdict.denyAlreadyUsed b.usedAt, b) ∧
      getVerifyScanned b now = (Verdict.defaultRender, b)) ∧
    (∀ (b : Barcode) (now : Instant),
      ((postVerify b now).2 ≠ b ∨ (mobileScan b now).2 ≠ b ∨
        (mobileScanP0 b now).2 ≠ b ∨ (getVerifyScanned b now).2 ≠ b) →
      b.used = false) := by
  constructor
  · intro b now h
    refine ⟨?_, ?_, ?_, ?_⟩ <;>
      simp [postVerify, mobileScan, mobileScanP0, getVerifyScanned, h]
  · intro b now hne
    cases hb : b.used
    · rfl
    · exfalso
      rcases hne with hne | hne | hne | hne <;>
        exact hne (by simp [postVerify, mobileScan, mobileScanP0, getVerifyScanned, hb])

theorem consume_at_most_once_witness :
    postVerify usedBarcode t2026 =
      (Verdict.denyAlreadyUsed (some ⟨2026, 10, 5, 10, 30⟩), usedBarcode) ∧
    mobileScan usedBarcode t2026 =
      (Verdict.denyAlreadyUsed (some ⟨2026, 10, 5, 10, 30⟩), usedBarcode) := by
  have h := consume_at_most_once.1 usedBarcode t2026 rfl
  exact ⟨h.1, h.2.1⟩

/-- C2 (code bug): the source consumes a pass by a non-atomic
read-then-write. Under the interleaving in which two mobile-scan requests
for the same fresh code both complete their `findOne` read before either
performs its `save` write, BOTH requests return GRANT — two successful
redemptions of one pass — whereas the spec requires exactly one success
with the other reporting DENY("already used"). Only the fully serialized
execution produces the required one-GRANT-one-DENY outcome. -/
theorem double_redemption_race :
    raceInterleaved baseBarcode t2026 t2026 =
      (Verdict.grant, Verdict.grant, markUsed baseBarcode t2026) ∧
    raceSerial baseBarcode t2026 t2026 =
      (Verdict.grant, Verdict.denyAlreadyUsed (some t2026), markUsed baseBarcode t2026) := by
  decide

/-- C3 (code bug): a pass with `activeDate=null`, unused and unexpired, is
granted by `POST /verify`, by the `GET /verify` scannedCode path and by the
src/server.js `GET /mobile-scan` handler — but the src/unnamed/part_000
revision of `GET /mobile-scan` evaluates `new Date(null)` to the epoch and
therefore denies the same pass with "window elapsed" (event day
1970-01-01), contradicting the model's own "no active date means always
active" rule. -/
theorem null_activeDate_grant_bug :
    (postVerify baseBarcode t2026).1 = Verdict.grant ∧
    (getVerifyScanned baseBarcode t2026).1 = Verdict.grant ∧
    (mobileScan baseBarcode t2026).1 = Verdict.grant ∧
    (mobileScanP0 baseBarcode t2026).1 = Verdict.denyWindowElapsed ⟨1970, 1, 1⟩ := by
  decide

/-- C4 (code bug): `POST /verify` and both `GET /mobile-scan` revisions deny
an expired pass with DENY("expired"), and do so ahead of any schedule
verdict (the expired pass scheduled for tomorrow is still reported
"expired", not "not yet active") — but the `GET /verify` scannedCode path
performs no expiry check at all: it GRANTS the expired pass and consumes
it, contradicting the expiry rule shared by the other entry points and by
`Barcode.isValid`. -/
theorem expiry_precedence_bug :
    (postVerify expiredPass t2026).1 = Verdict.denyExpired ⟨2020, 1, 1, 0, 0⟩ ∧
    (mobileScan expiredPass t2026).1 = Verdict.denyExpired ⟨2020, 1, 1, 0, 0⟩ ∧
    (mobileScanP0 expiredPass t2026).1 = Verdict.denyExpired ⟨2020, 1, 1, 0, 0⟩ ∧
    (postVerify expiredScheduled t2026).1 = Verdict.denyExpired ⟨2020, 1, 1, 0, 0⟩ ∧
    (mobileScan expiredScheduled t2026).1 = Verdict.denyExpired ⟨2020, 1, 1, 0, 0⟩ ∧
    (mobileScanP0 expiredScheduled t2026).1 = Verdict.denyExpired ⟨2020, 1, 1, 0, 0⟩ ∧
    Barcode.isValid expiredPass t2026 = false ∧
    getVerifyScanned expiredPass t2026 = (Verdict.grant, markUsed expiredPass t2026) := by
  decide

/-- C5: for every unused pass — unexpired through the evaluation window —
scheduled on the evaluation day with `activeTime="09:00"` and
`endTime="17:00"`, manual verification denies "too early" at 08:59, grants
at 09:00 and at 17:00, and denies "too late" at 17:01; the model's
`isActive` agrees at all four instants. The bounds are inclusive at both
ends. -/
theorem time_window_inclusive
    (b : Barcode) (d : DateTriple)
    (hused : b.used = false)
    (hexp : expiredB b ⟨d.year, d.month, d.day, 17, 1⟩ = false)
    (hdate : b.activeDate = some d)
    (hstart : b.activeTime = "09:00") (hend : b.endTime = "17:00") :
    (postVerify b ⟨d.year, d.month, d.day, 8, 59⟩).1 = Verdict.denyTooEarly "09:00" ∧
    (postVerify b ⟨d.year, d.month, d.day, 9, 0⟩).1 = Verdict.grant ∧
    (postVerify b ⟨d.year, d.month, d.day, 17, 0⟩).1 = Verdict.grant ∧
    (postVerify b ⟨d.year, d.month, d.day, 17, 1⟩).1 = Verdict.denyTooLate "17:00" ∧
    b.isActive ⟨d.year, d.month, d.day, 8, 59⟩ = false ∧
    b.isActive ⟨d.year, d.month, d.day, 9, 0⟩ = true ∧
    b.isActive ⟨d.year, d.month, d.day, 17, 0⟩ = true ∧
    b.isActive ⟨d.year, d.month, d.day, 17, 1⟩ = false := by
  have hexpAt : ∀ hh mm : Nat,
      Instant.ltb ⟨d.year, d.month, d.day, hh, mm⟩ ⟨d.year, d.month, d.day, 17, 1⟩ = true →
      expiredB b ⟨d.year, d.month, d.day, hh, mm⟩ = false := by
    intro hh mm hlt
    unfold expiredB at hexp ⊢
    rcases hE : b.expiresAt with _ | e
    · rfl
    · rw [hE] at hexp
      simp only [] at hexp ⊢
      cases he : Instant.ltb e ⟨d.year, d.month, d.day, hh, mm⟩
      · rfl
      · exact absurd (Instant.ltb_trans he hlt) (by simp [hexp])
  have e89 : expiredB b ⟨d.year, d.month, d.day, 8, 59⟩ = false :=
    hexpAt 8 59 (by simp [Instant.ltb])
  have e90 : expiredB b ⟨d.year, d.month, d.day, 9, 0⟩ = false :=
    hexpAt 9 0 (by simp [Instant.ltb])
  have e170 : expiredB b ⟨d.year, d.month, d.day, 17, 0⟩ = false :=
    hexpAt 17 0 (by simp [Instant.ltb])
  have ht89 : Instant.timeHM ⟨d.year, d.month, d.day, 8, 59⟩ = "08:59" := by
    show pad2 8 ++ ":" ++ pad2 59 = "08:59"
    decide
  have ht90 : Instant.timeHM ⟨d.year, d.month, d.day, 9, 0⟩ = "09:00" := by
    show pad2 9 ++ ":" ++ pad2 0 = "09:00"
    decide
  have ht170 : Instant.timeHM ⟨d.year, d.month, d.day, 17, 0⟩ = "17:00" := by
    show pad2 17 ++ ":" ++ pad2 0 = "17:00"
    decide
  have ht171 : Instant.timeHM ⟨d.year, d.month, d.day, 17, 1⟩ = "17:01" := by
    show pad2 17 ++ ":" ++ pad2 1 = "17:01"
    decide
  have hdd : ∀ hh mm : Nat, Instant.dateOf ⟨d.year, d.month, d.day, hh, mm⟩ = d :=
    fun hh mm => rfl
  have q1 : strLtb "08:59" "09:00" = true := by decide
  have q2 : strLtb "09:00" "09:00" = false := by decide
  have q3 : strLtb "17:00" "09:00" = false := by decide
  have q4 : strLtb "17:00" "17:00" = false := by decide
  have q5 : strLtb "17:01" "09:00" = false := by decide
  have q6 : strLtb "17:00" "17:01" = true := by decide
  have r1 : strLtb "08:59" "09:00" = true := by decide
  have r2 : strLtb "09:00" "09:00" = false := by decide
  have r3 : strLtb "17:00" "09:00" = false := by decide
  have r4 : strLtb "17:01" "09:00" = false := by decide
  have s2 : strLtb "17:00" "09:00" = false := by decide
  have s3 : strLtb "17:00" "17:00" = false := by decide
  have s4 : strLtb "17:00" "17:01" = true := by decide
  refine ⟨?_, ?_, ?_, ?_, ?_, ?_, ?_, ?_⟩
  · rw [postVerify_fresh b _ hused e89, scheduleCheck_same_day b d _ hdate (hdd 8 59),
      hstart, hend, ht89, q1]
    simp
  · rw [postVerify_fresh b _ hused e90, scheduleCheck_same_day b d _ hdate (hdd 9 0),
      hstart, hend, ht90, q2, q3]
    simp
  · rw [postVerify_fresh b _ hused e170, scheduleCheck_same_day b d _ hdate (hdd 17 0),
      hstart, hend, ht170, q3, q4]
    simp
  · rw [postVerify_fresh b _ hused hexp, scheduleCheck_same_day b d _ hdate (hdd 17 1),
      hstart, hend, ht171, q5, q6]
    simp
  · simp only [Barcode.isActive, hdate, hstart, hend, ht89, hdd 8 59]
    rw [r1]
    simp
  · simp only [Barcode.isActive, hdate, hstart, hend, ht90, hdd 9 0]
    rw [r2, s2]
    simp
  · simp only [Barcode.isActive, hdate, hstart, hend, ht170, hdd 17 0]
    rw [r3, s3]
    simp
  · simp only [Barcode.isActive, hdate, hstart, hend, ht171, hdd 17 1]
    rw [r4, s4]
    simp

/-- The day of `t2026` with business-hour bounds, for concrete evaluation. -/
def dayPass : Barcode :=
  { baseBarcode with
    activeDate := some ⟨2026, 10, 11⟩, activeTime := "09:00", endTime := "17:00" }

theorem time_window_inclusive_witness :
    (postVerify dayPass ⟨2026, 10, 11, 8, 59⟩).1 = Verdict.denyTooEarly "09:00" ∧
    (postVerify dayPass ⟨2026, 10, 11, 9, 0⟩).1 = Verdict.grant ∧
    (postVerify dayPass ⟨2026, 10, 11, 17, 0⟩).1 = Verdict.grant ∧
    (postVerify dayPass ⟨2026, 10, 11, 17, 1⟩).1 = Verdict.denyTooLate "17:00" := by
  have h := time_window_inclusive dayPass ⟨2026, 10, 11⟩ rfl rfl rfl rfl rfl
  exact ⟨h.1, h.2.1, h.2.2.1, h.2.2.2.1⟩

/-- C6: for every unused, unexpired pass whose `activeDate` lies strictly
after the evaluation day, every redemption handler denies "not yet active"
when `allowEarlyAccess` is false and grants when it is true; the grant is
independent of `activeTime`/`endTime` (the pass is universally quantified
over them), so early access bypasses the time-of-day window entirely. -/
theorem early_access_gate
    (b : Barcode) (d : DateTriple) (now : Instant)
    (hused : b.used = false)
    (hexp : expiredB b now = false)
    (hdate : b.activeDate = some d)
    (hbefore : DateTriple.ltb now.dateOf d = true) :
    (b.allowEarlyAccess = false →
      (postVerify b now).1 = Verdict.denyNotYetActive d ∧
      (getVerifyScanned b now).1 = Verdict.denyNotYetActive d ∧
      (mobileScan b now).1 = Verdict.denyNotYetActive d ∧
      (mobileScanP0 b now).1 = Verdict.denyNotYetActive d) ∧
    (b.allowEarlyAccess = true →
      (postVerify b now).1 = Verdict.grant ∧
      (getVerifyScanned b now).1 = Verdict.grant ∧
      (mobileScan b now).1 = Verdict.grant ∧
      (mobileScanP0 b now).1 = Verdict.grant) := by
  have h1 := postVerify_fresh b now hused hexp
  have h2 := getVerifyScanned_fresh b now hused
  have h3 := mobileScan_fresh b now hused hexp
  have h4 := mobileScanP0_fresh b now hused hexp
  have s1 := scheduleCheck_before_day b d now hdate hbefore
  have s4 : mobileScanP0Schedule b now (b.activeDate.getD ⟨1970, 1, 1⟩) =
      if b.allowEarlyAccess then (Verdict.grant, markUsed b now)
      else (Verdict.denyNotYetActive d, b) := by
    rw [hdate]
    exact mobileScanP0Schedule_before_day b d now hbefore
  have s2 := mobileScanSchedule_before_day b d now hdate hbefore
  constructor <;> intro ha <;> simp [h1, h2, h3, h4, s1, s2, s4, ha]

/-- A pass scheduled for the day after `t2026`, early access off. -/
def tomorrowPass : Barcode :=
  { baseBarcode with activeDate := some ⟨2026, 10, 12⟩ }

/-- The same pass with early access on. -/
def tomorrowPassEarly : Barcode :=
  { tomorrowPass with allowEarlyAccess := true }

theorem early_access_gate_witness :
    (postVerify tomorrowPass t2026).1 = Verdict.denyNotYetActive ⟨2026, 10, 12⟩ ∧
    (mobileScanP0 tomorrowPass t2026).1 = Verdict.denyNotYetActive ⟨2026, 10, 12⟩ ∧
    (postVerify tomorrowPassEarly t2026).1 = Verdict.grant ∧
    (mobileScanP0 tomorrowPassEarly t2026).1 = Verdict.grant := by
  have h := early_access_gate tomorrowPass ⟨2026, 10, 12⟩ t2026 rfl rfl rfl (by decide)
  have h' := early_access_gate tomorrowPassEarly ⟨2026, 10, 12⟩ t2026 rfl rfl rfl (by decide)
  exact ⟨(h.1 rfl).1, (h.1 rfl).2.2.2, (h'.2 rfl).1, (h'.2 rfl).2.2.2⟩

/-- A generate request carrying a schedule date but no time bounds. -/
def scheduleReqNoBounds : GenerateRequest :=
  { issuedTo := some "Alice"
    purpose := none
    expiryHours := none
    activeDate := some ⟨2026, 10, 20⟩
    activeTime := none
    endTime := none
    allowEarlyAccess := false }

/-- A constant expiry clock for concrete issuance runs. -/
def issuedClock : Nat → Instant := fun _ => t2026

/-- C7 counterexample: an issuance through the generate route with
`activeDate` set and no `activeTime`/`endTime` supplied stores the route's
destructuring defaults 09:00/17:00, not the full-day schema defaults
00:00/23:59 the claim states. -/
theorem generate_fullday_defaults_counterexample :
    (generateHandler scheduleReqNoBounds t2026 "A1B2" issuedClock).map Barcode.activeTime
      = some "09:00" ∧
    (generateHandler scheduleReqNoBounds t2026 "A1B2" issuedClock).map Barcode.endTime
      = some "17:00" ∧
    some "09:00" ≠ some ("00:00" : String) ∧
    some "17:00" ≠ some ("23:59" : String) := by
  decide

/-- C7 as amended: for every issuance through the generate route in which
`activeDate` is set but `activeTime` and `endTime` are not specified, the
stored pass carries the route's default bounds `activeTime="09:00"` and
`endTime="17:00"`; the schema-level full-day defaults apply only to
documents created without these fields, which the generate route never
omits. -/
theorem generate_defaults_amended
    (req : GenerateRequest) (now : Instant) (code : String) (clock : Nat → Instant)
    (_hd : req.activeDate.isSome = true)
    (ha : req.activeTime = none) (he : req.endTime = none)
    (b : Barcode) (hb : generateHandler req now code clock = some b) :
    b.activeTime = "09:00" ∧ b.endTime = "17:00" := by
  unfold generateHandler at hb
  rcases hI : req.issuedTo with _ | s
  · rw [hI] at hb
    exact absurd hb (by simp)
  · rw [hI] at hb
    simp only [ha, he, Option.getD] at hb
    split at hb
    · exact absurd hb (by simp)
    · injection hb with h
      subst h
      exact ⟨rfl, rfl⟩

/-- The record the generate route stores for `scheduleReqNoBounds`. -/
def storedNoBounds : Barcode :=
  { code := "A1B2"
    used := false
    issuedTo := "Alice"
    issuedAt := t2026
    usedAt := none
    purpose := none
    expiresAt := none
    scannerId := none
    activeDate := some ⟨2026, 10, 20⟩
    activeTime := "09:00"
    endTime := "17:00"
    allowEarlyAccess := false }

theorem generate_defaults_amended_witness :
    storedNoBounds.activeTime = "09:00" ∧ storedNoBounds.endTime = "17:00" :=
  generate_defaults_amended scheduleReqNoBounds t2026 "A1B2" issuedClock rfl rfl rfl
    storedNoBounds (by decide)

/-- An `issuedTo` of 101 characters, one over the documented bound. -/
def longIssuedTo : String := ⟨List.replicate 101 'A'⟩

/-- The generate request submitting the oversized `issuedTo`. -/
def overlongReq : GenerateRequest :=
  { issuedTo := some longIssuedTo
    purpose := none
    expiryHours := none
    activeDate := none
    activeTime := none
    endTime := none
    allowEarlyAccess := false }

/-- C8 counterexample: an `issuedTo` of 101 characters — an input
`validateBarcodeInput` classifies as oversize — is NOT rejected by the
generate route: the handler creates a pass record for it, because neither
server revision attaches the validation middleware to `POST /generate`. -/
theorem issuance_validation_counterexample :
    longIssuedTo.length = 101 ∧
    validateBarcodeInput (some longIssuedTo) none = ValidationResult.errIssuedToLong ∧
    (generateHandler overlongReq t2026 "A1B2" issuedClock).isSome = true := by
  decide

/-- C8 as amended: the generate route itself rejects only a missing or empty
`issuedTo`, creating no record in that case; the documented length bounds
(issuedTo over 100, purpose over 200 characters) are enforced by the
`validateBarcodeInput` middleware — which, where attached, rejects before
any record can be created — but the `POST /generate` route does not attach
it, so oversized fields pass through. -/
theorem issuance_validation_amended :
    (∀ (req : GenerateRequest) (now : Instant) (code : String) (clock : Nat → Instant),
      req.issuedTo = none ∨ req.issuedTo = some "" →
      generateHandler req now code clock = none) ∧
    (∀ p : Option String, validateBarcodeInput none p = ValidationResult.errRequired) ∧
    (∀ (s : String) (p : Option String), (jsTrim s).length = 0 →
      validateBarcodeInput (some s) p = ValidationResult.errRequired) ∧
    (∀ (s : String) (p : Option String), (jsTrim s).length ≠ 0 → s.length > 100 →
      validateBarcodeInput (some s) p = ValidationResult.errIssuedToLong) ∧
    (∀ (s p : String), (jsTrim s).length ≠ 0 → s.length ≤ 100 → p.length > 200 →
      validateBarcodeInput (some s) (some p) = ValidationResult.errPurposeLong) ∧
    (∀ (req : GenerateRequest) (now : Instant) (code : String) (clock : Nat → Instant),
      validateBarcodeInput req.issuedTo req.purpose ≠ ValidationResult.ok →
      generateWithMiddleware req now code clock = none) := by
  refine ⟨?_, ?_, ?_, ?_, ?_, ?_⟩
  · intro req now code clock h
    rcases h with h | h <;> simp [generateHandler, h]
  · intro p
    rfl
  · intro s p h
    simp [validateBarcodeInput, h]
  · intro s p h1 h2
    simp [validateBarcodeInput, h1, h2]
  · intro s p h1 h2 h3
    have hp : p ≠ "" := by
      intro h'
      subst h'
      simp at h3
    have h2' : ¬(s.length > 100) := by omega
    simp [validateBarcodeInput, h1, h2', h3, hp]
  · intro req now code clock h
    unfold generateWithMiddleware
    cases hv : validateBarcodeInput req.issuedTo req.purpose
    · exact absurd hv h
    all_goals rfl

/-- A generate request with no `issuedTo` at all. -/
def emptyReq : GenerateRequest :=
  { issuedTo := none
    purpose := none
    expiryHours := none
    activeDate := none
    activeTime := none
    endTime := none
    allowEarlyAccess := false }

theorem issuance_validation_amended_witness :
    generateHandler emptyReq t2026 "A1B2" issuedClock = none ∧
    validateBarcodeInput (some "   ") none = ValidationResult.errRequired ∧
    generateWithMiddleware overlongReq t2026 "A1B2" issuedClock = none := by
  refine ⟨?_, ?_, ?_⟩
  · exact issuance_validation_amended.1 emptyReq t2026 "A1B2" issuedClock (Or.inl rfl)
  · exact issuance_validation_amended.2.2.1 "   " none (by decide)
  · exact issuance_validation_amended.2.2.2.2.2 overlongReq t2026 "A1B2" issuedClock
      (by decide)

/-- C9: across every operation of the system the `used` flag only ever moves
from false to true — an already-used pass stays used under every handler and
under `markAsUsed` — and `usedAt` is non-null exactly when `used` is true:
the invariant is preserved by every handler and by `markAsUsed` (which
assigns `usedAt` in the same step that sets `used`), and issuance creates
records with `used=false` and `usedAt=null`. -/
theorem used_flag_invariant :
    (∀ (b : Barcode) (now : Instant) (sid : Option String), UsedInv b →
      UsedInv (markAsUsed b now sid) ∧ UsedInv (postVerify b now).2 ∧
      UsedInv (getVerifyScanned b now).2 ∧ UsedInv (mobileScan b now).2 ∧
      UsedInv (mobileScanP0 b now).2) ∧
    (∀ (b : Barcode) (now : Instant) (sid : Option String), b.used = true →
      (markAsUsed b now sid).used = true ∧ (postVerify b now).2.used = true ∧
      (getVerifyScanned b now).2.used = true ∧ (mobileScan b now).2.used = true ∧
      (mobileScanP0 b now).2.used = true) ∧
    (∀ (b : Barcode) (now : Instant) (sid : Option String),
      (markAsUsed b now sid).used = true ∧ (markAsUsed b now sid).usedAt = some now) ∧
    (∀ (req : GenerateRequest) (now : Instant) (code : String) (clock : Nat → Instant)
      (b : Barcode), generateHandler req now code clock = some b →
      b.used = false ∧ b.usedAt = none) := by
  have hwd : ∀ (b : Barcode) (now : Instant) (r : Verdict × Barcode),
      WriteDiscipline r b now →
      (UsedInv b → UsedInv r.2) ∧ (b.used = true → r.2.used = true) := by
    intro b now r hr
    rcases hr with ⟨-, h2⟩ | ⟨-, h2⟩ <;> rw [h2]
    · exact ⟨fun _ => by simp [UsedInv, markUsed], fun _ => by simp [markUsed]⟩
    · exact ⟨id, id⟩
  refine ⟨?_, ?_, ?_, ?_⟩
  · intro b now sid hInv
    exact ⟨by simp [UsedInv, markAsUsed],
      (hwd b now _ (postVerify_writes b now)).1 hInv,
      (hwd b now _ (getVerifyScanned_writes b now)).1 hInv,
      (hwd b now _ (mobileScan_writes b now)).1 hInv,
      (hwd b now _ (mobileScanP0_writes b now)).1 hInv⟩
  · intro b now sid hu
    exact ⟨by simp [markAsUsed],
      (hwd b now _ (postVerify_writes b now)).2 hu,
      (hwd b now _ (getVerifyScanned_writes b now)).2 hu,
      (hwd b now _ (mobileScan_writes b now)).2 hu,
      (hwd b now _ (mobileScanP0_writes b now)).2 hu⟩
  · intro b now sid
    exact ⟨by simp [markAsUsed], by simp [markAsUsed]⟩
  · intro req now code clock b hb
    unfold generateHandler at hb
    rcases hI : req.issuedTo with _ | s
    · rw [hI] at hb
      exact absurd hb (by simp)
    · rw [hI] at hb
      simp only [] at hb
      split at hb
      · exact absurd hb (by simp)
      · injection hb with h
        subst h
        exact ⟨rfl, rfl⟩

theorem used_flag_invariant_witness :
    UsedInv (markAsUsed baseBarcode t2026 none) ∧
    UsedInv (postVerify baseBarcode t2026).2 ∧
    (markAsUsed usedBarcode t2026 none).used = true := by
  have h := used_flag_invariant.1 baseBarcode t2026 none (by decide)
  have h' := used_flag_invariant.2.1 usedBarcode t2026 none rfl
  exact ⟨h.1, h.2.1, h'.1⟩

/-- C10: on every redemption handler, any non-GRANT outcome leaves the
stored record exactly as it was read — every deny branch returns before any
save — and the only write a handler performs is the `used`/`usedAt` update
on the GRANT path. -/
theorem deny_frame_no_write (b : Barcode) (now : Instant) :
    ((postVerify b now).1 ≠ Verdict.grant → (postVerify b now).2 = b) ∧
    ((postVerify b now).1 = Verdict.grant → (postVerify b now).2 = markUsed b now) ∧
    ((getVerifyScanned b now).1 ≠ Verdict.grant → (getVerifyScanned b now).2 = b) ∧
    ((getVerifyScanned b now).1 = Verdict.grant →
      (getVerifyScanned b now).2 = markUsed b now) ∧
    ((mobileScan b now).1 ≠ Verdict.grant → (mobileScan b now).2 = b) ∧
    ((mobileScan b now).1 = Verdict.grant → (mobileScan b now).2 = markUsed b now) ∧
    ((mobileScanP0 b now).1 ≠ Verdict.grant → (mobileScanP0 b now).2 = b) ∧
    ((mobileScanP0 b now).1 = Verdict.grant → (mobileScanP0 b now).2 = markUsed b now) := by
  have h1 := postVerify_writes b now
  have h2 := getVerifyScanned_writes b now
  have h3 := mobileScan_writes b now
  have h4 := mobileScanP0_writes b now
  unfold WriteDiscipline at h1 h2 h3 h4
  refine ⟨?_, ?_, ?_, ?_, ?_, ?_, ?_, ?_⟩ <;> intro hv
  · rcases h1 with ⟨hg, hw⟩ | ⟨hg, hw⟩
    · exact absurd hg hv
    · exact hw
  · rcases h1 with ⟨hg, hw⟩ | ⟨hg, hw⟩
    · exact hw
    · exact absurd hv hg
  · rcases h2 with ⟨hg, hw⟩ | ⟨hg, hw⟩
    · exact absurd hg hv
    · exact hw
  · rcases h2 with ⟨hg, hw⟩ | ⟨hg, hw⟩
    · exact hw
    · exact absurd hv hg
  · rcases h3 with ⟨hg, hw⟩ | ⟨hg, hw⟩
    · exact absurd hg hv
    · exact hw
  · rcases h3 with ⟨hg, hw⟩ | ⟨hg, hw⟩
    · exact hw
    · exact absurd hv hg
  · rcases h4 with ⟨hg, hw⟩ | ⟨hg, hw⟩
    · exact absurd hg hv
    · exact hw
  · rcases h4 with ⟨hg, hw⟩ | ⟨hg, hw⟩
    · exact hw
    · exact absurd hv hg

theorem deny_frame_no_write_witness :
    (postVerify usedBarcode t2026).2 = usedBarcode ∧
    (mobileScanP0 usedBarcode t2026).2 = usedBarcode ∧
    (postVerify baseBarcode t2026).2 = markUsed baseBarcode t2026 := by
  have h := deny_frame_no_write usedBarcode t2026
  have h' := deny_frame_no_write baseBarcode t2026
  exact ⟨h.1 (by decide), h.2.2.2.2.2.2.1 (by decide), h'.2.1 (by decide)⟩
